import Mathlib

/-!
Verification development for the dual-agent evidence-chain verification
subsystem (`src/core/dual_agent_verification.py`).

Modelling conventions:
* Python floats are modelled as exact rationals (`ℚ`); the numeric literals
  in the source (0.95, 0.8, 0.7, 0.3, 0.6, 0.5, 1.2) are exact decimals.
* Python dictionaries coming back from the LLM client are modelled as
  association lists of string keys to dynamically typed values (`PyVal`).
* `str.split()` (whitespace split, empty chunks discarded), truthiness,
  `str()` rendering of numbers, and `str.strip()` are modelled explicitly.
* Fallible operations (a missing verification response) return `Option`.
-/

namespace DualAgent

/-- Dynamically typed value inside an oracle response record. -/
inductive PyVal where
  | str (s : String)
  | num (q : ℚ)
  | list (l : List String)
deriving DecidableEq

/-- Auxiliary loop for `pySplit`: walks the character list, accumulating the
current (reversed) token. -/
def pySplitGo : List Char → List Char → List String
  | [], acc => if acc.isEmpty then [] else [String.mk acc.reverse]
  | c :: cs, acc =>
    if c.isWhitespace then
      if acc.isEmpty then pySplitGo cs [] else String.mk acc.reverse :: pySplitGo cs []
    else
      pySplitGo cs (c :: acc)

/-- Python `str.split()` with no argument: split on runs of whitespace,
discarding empty chunks. -/
def pySplit (s : String) : List String :=
  pySplitGo s.toList []

/-- Size of `set(s1.split()) & set(s2.split())`: the number of distinct
tokens of `s1` that also occur in `s2`. -/
def tokenOverlapCount (s1 s2 : String) : Nat :=
  ((pySplit s1).eraseDups.filter (fun t => (pySplit s2).contains t)).length

/-- Least exponent `n ≤ 400` such that `q * 10^n` is an integer; `none`
for rationals without a short finite decimal expansion (never hit by the
decimal values appearing in oracle payloads). -/
def decScale (q : ℚ) : Option Nat :=
  (List.range 400).find? (fun n => 10 ^ n % q.den = 0)

/-- Python `str()` of a float, idealised over exact decimal rationals:
shortest decimal form, with a trailing `.0` for integral values. -/
def pyFloatStr (q : ℚ) : String :=
  match decScale q with
  | none => toString q.num ++ "/" ++ toString q.den
  | some n =>
    let m : Int := q.num * ((10 ^ n) / (q.den : Int))
    let a := m.natAbs
    let sign := if m < 0 then "-" else ""
    if n = 0 then
      sign ++ toString a ++ ".0"
    else
      let ip := a / 10 ^ n
      let fp := a % 10 ^ n
      let fpStr := toString fp
      let pad := String.mk (List.replicate (n - fpStr.length) '0')
      sign ++ toString ip ++ "." ++ pad ++ fpStr

/-- Python `str()` on a dynamic value. -/
def pyStr : PyVal → String
  | .str s => s
  | .num q => pyFloatStr q
  | .list l => toString l

/-- Python truthiness of a dynamic value. -/
def pyTruthy : PyVal → Bool
  | .str s => !s.isEmpty
  | .num q => decide (q ≠ 0)
  | .list l => !l.isEmpty

/-- Python `str.strip()` with no argument: drop leading and trailing
whitespace. -/
def pyStrip (s : String) : String :=
  String.mk
    (((s.toList.dropWhile Char.isWhitespace).reverse.dropWhile
      Char.isWhitespace).reverse)

/-- A raw oracle record: a Python dict from field names to dynamic values. -/
def RawMetric : Type := List (String × PyVal)

/-- Dict key lookup. -/
def RawMetric.lookup (m : RawMetric) (k : String) : Option PyVal :=
  List.lookup k m

/-- Embedding of `ExtractionAgent._has_valid_evidence`: each of
`source_quote`, `confidence`, `reasoning` must be present, truthy, and have
`len(str(value).strip()) > 10`. -/
def has_valid_evidence (raw_metric : RawMetric) : Bool :=
  ["source_quote", "confidence", "reasoning"].all fun field =>
    match raw_metric.lookup field with
    | none => false
    | some v => pyTruthy v && decide ((pyStrip (pyStr v)).length > 10)

/-- Structured evidence for a metric extraction (`Evidence` dataclass). -/
structure Evidence where
  source_quote : String
  page_number : Int
  confidence : ℚ
  reasoning : String
  assumptions : List String
  context_window : String
deriving DecidableEq

/-- A claim about a metric with full evidence chain (`MetricClaim`). -/
structure MetricClaim where
  metric_name : String
  value : ℚ
  unit : String
  period : String
  evidence : Evidence
  extraction_method : String
  agent_id : String
deriving DecidableEq

/-- Builds the `MetricClaim` constructed in `extract_with_evidence` from a
raw record; `none` models the `KeyError`/type error paths that a malformed
record would raise in Python after passing validation. -/
def buildClaim (raw_metric : RawMetric) (page_num : Int) (agent_id : String) :
    Option MetricClaim :=
  match raw_metric.lookup "metric_name", raw_metric.lookup "value",
      raw_metric.lookup "unit", raw_metric.lookup "period",
      raw_metric.lookup "source_quote", raw_metric.lookup "confidence",
      raw_metric.lookup "reasoning" with
  | some (.str name), some (.num v), some (.str u), some (.str p),
      some (.str sq), some (.num conf), some (.str reas) =>
    some
      { metric_name := name
        value := v
        unit := u
        period := p
        evidence :=
          { source_quote := sq
            page_number := page_num
            confidence := conf
            reasoning := reas
            assumptions :=
              match raw_metric.lookup "assumptions" with
              | some (.list l) => l
              | _ => []
            context_window :=
              match raw_metric.lookup "context_window" with
              | some (.str cw) => cw
              | _ => "" }
        extraction_method := "llm_evidence_extraction"
        agent_id := agent_id }
  | _, _, _, _, _, _, _ => none

/-- Embedding of `ExtractionAgent.extract_with_evidence` applied to the
oracle response: records failing `_has_valid_evidence` are skipped, the
rest become claims. -/
def extract_with_evidence (response : List RawMetric) (page_num : Int)
    (agent_id : String) : List MetricClaim :=
  response.filterMap fun raw_metric =>
    if has_valid_evidence raw_metric then buildClaim raw_metric page_num agent_id
    else none

/-- A raw verification record from the oracle (`response[0]` in
`verify_claim`); absent keys model `dict.get` misses. -/
structure RawVerification where
  your_source_quote : Option String
  your_value : Option ℚ
  your_confidence : Option ℚ
  your_reasoning : Option String
  conflict_points : Option (List String)
deriving DecidableEq

/-- Embedding of `VerificationAgent.verify_claim` applied to the oracle
response: `none` when the response is empty, otherwise a fresh claim built
from the first record with `dict.get` defaults. -/
def verify_claim (agent_id : String) (claim : MetricClaim)
    (response : List RawVerification) : Option MetricClaim :=
  match response with
  | [] => none
  | verification_data :: _ =>
    some
      { metric_name := claim.metric_name
        value := verification_data.your_value.getD claim.value
        unit := claim.unit
        period := claim.period
        evidence :=
          { source_quote := verification_data.your_source_quote.getD ""
            page_number := claim.evidence.page_number
            confidence := verification_data.your_confidence.getD 0
            reasoning := verification_data.your_reasoning.getD ""
            assumptions := verification_data.conflict_points.getD []
            context_window := "" }
        extraction_method := "verification_check"
        agent_id := agent_id }

/-- The four-valued status enum (`VerificationStatus`). -/
inductive VerificationStatus where
  | VERIFIED
  | DISPUTED
  | UNCERTAIN
  | REJECTED
deriving DecidableEq

/-- Result of the dual-agent verification process (`VerificationResult`). -/
structure VerificationResult where
  original_claim : MetricClaim
  verification_claim : Option MetricClaim
  status : VerificationStatus
  consensus_value : Option ℚ
  confidence_score : ℚ
  conflict_analysis : Option String
  resolution_reasoning : String
deriving DecidableEq

/-- Embedding of `ConsensusEngine._calculate_value_agreement`. -/
def calculate_value_agreement (val1 val2 : ℚ) : ℚ :=
  if val1 = 0 ∧ val2 = 0 then 1
  else if val1 = 0 ∨ val2 = 0 then 0
  else min val1 val2 / max val1 val2

/-- The dict returned by `ConsensusEngine._evaluate_evidence_strength`. -/
structure EvidenceStrength where
  both_strong : Bool
  source_overlap : Bool
  conflict : Bool
deriving DecidableEq

/-- Embedding of `ConsensusEngine._evaluate_evidence_strength`. -/
def evaluate_evidence_strength (ev1 ev2 : Evidence) : EvidenceStrength :=
  { both_strong := decide (ev1.confidence > 7/10 ∧ ev2.confidence > 7/10)
    source_overlap :=
      decide (tokenOverlapCount ev1.source_quote ev2.source_quote > 3)
    conflict :=
      decide (ev1.confidence > 8/10 ∧ ev2.confidence > 8/10 ∧
        tokenOverlapCount ev1.source_quote ev2.source_quote < 2) }

/-- Embedding of `ConsensusEngine._weighted_consensus`. -/
def weighted_consensus (original verification : MetricClaim)
    (evidence_strength : EvidenceStrength) : ℚ :=
  let w1 := original.evidence.confidence
  let w2 := verification.evidence.confidence
  let w1 := if evidence_strength.source_overlap then w1 * (12/10) else w1
  let w2 := if evidence_strength.source_overlap then w2 * (12/10) else w2
  let total_weight := w1 + w2
  if total_weight = 0 then (original.value + verification.value) / 2
  else (original.value * w1 + verification.value * w2) / total_weight

/-- Banker's rounding (round half to even), the rounding used by Python's
string formatting, idealised over exact rationals. -/
def pyRoundHalfEven (x : ℚ) : ℤ :=
  let f := ⌊x⌋
  let r := x - (f : ℚ)
  if r < 1/2 then f
  else if r > 1/2 then f + 1
  else if f % 2 = 0 then f else f + 1

/-- Python `f"{q:.2%}"`: percentage with two decimal places. -/
def formatPercent2 (q : ℚ) : String :=
  let r := pyRoundHalfEven (q * 10000)
  let sign := if r < 0 then "-" else ""
  let a := r.natAbs
  let ip := a / 100
  let fp := a % 100
  let fpStr := toString fp
  let pad := String.mk (List.replicate (2 - fpStr.length) '0')
  sign ++ toString ip ++ "." ++ pad ++ fpStr ++ "%"

/-- Embedding of `ConsensusEngine.resolve_conflict`. -/
def resolve_conflict (original : MetricClaim)
    (verification : Option MetricClaim) : VerificationResult :=
  match verification with
  | none =>
    { original_claim := original
      verification_claim := none
      status := .UNCERTAIN
      consensus_value := some original.value
      confidence_score := original.evidence.confidence * (1/2)
      conflict_analysis := some "Verification failed"
      resolution_reasoning := "Using original claim with reduced confidence" }
  | some v =>
    let value_agreement := calculate_value_agreement original.value v.value
    let evidence_strength :=
      evaluate_evidence_strength original.evidence v.evidence
    if value_agreement > 95/100 ∧ evidence_strength.both_strong = true then
      { original_claim := original
        verification_claim := some v
        status := .VERIFIED
        consensus_value := some original.value
        confidence_score := min original.evidence.confidence v.evidence.confidence
        conflict_analysis := some "Strong agreement between agents"
        resolution_reasoning := "Both agents found consistent evidence" }
    else if value_agreement < 8/10 ∨ evidence_strength.conflict = true then
      { original_claim := original
        verification_claim := some v
        status := .DISPUTED
        consensus_value := none
        confidence_score := 3/10
        conflict_analysis :=
          some ("Value agreement: " ++ formatPercent2 value_agreement ++
            ", Evidence conflict detected")
        resolution_reasoning :=
          "Significant disagreement between agents - manual review required" }
    else
      { original_claim := original
        verification_claim := some v
        status := .UNCERTAIN
        consensus_value :=
          some (weighted_consensus original v evidence_strength)
        confidence_score := 6/10
        conflict_analysis := some "Moderate agreement with some uncertainty"
        resolution_reasoning := "Using weighted consensus of both agents" }

/-- One entry of the orchestrator's `verification_log`. -/
structure LogEntry where
  page : Int
  metric : String
  status : String
  confidence : ℚ
  original_value : ℚ
  consensus_value : Option ℚ
deriving DecidableEq

/-- The summary dict of `get_verification_summary` (when non-empty). -/
structure Summary where
  total_extractions : Nat
  verified_count : Nat
  disputed_count : Nat
  verification_rate : ℚ
  average_confidence : ℚ
  requires_review : Nat
deriving DecidableEq

/-- Embedding of `DualAgentVerificationSystem.get_verification_summary`;
`none` models the empty dict returned for an empty log. -/
def get_verification_summary (verification_log : List LogEntry) :
    Option Summary :=
  if verification_log.isEmpty then none
  else
    let total := verification_log.length
    let verified :=
      (verification_log.filter (fun log => log.status == "verified")).length
    let disputed :=
      (verification_log.filter (fun log => log.status == "disputed")).length
    let avg_confidence :=
      (verification_log.map (fun log => log.confidence)).sum / (total : ℚ)
    some
      { total_extractions := total
        verified_count := verified
        disputed_count := disputed
        verification_rate := if total > 0 then (verified : ℚ) / total else 0
        average_confidence := avg_confidence
        requires_review := disputed }

/-- Modelled from the spec: the spec's `ratio(a,b)` with absolute values
taken before `min`/`max` (`min(|a|,|b|) / max(|a|,|b|)` in the nonzero
case); stated for comparison against `calculate_value_agreement`. -/
def ratio_spec (a b : ℚ) : ℚ :=
  if a = 0 ∧ b = 0 then 1
  else if a = 0 ∨ b = 0 then 0
  else min |a| |b| / max |a| |b|

/-- Evidence record with page 1, fixed reasoning text, empty assumptions. -/
def mkEvidence (q : String) (c : ℚ) : Evidence :=
  { source_quote := q
    page_number := 1
    confidence := c
    reasoning := "stated directly in the revenue sentence"
    assumptions := []
    context_window := "" }

/-- Revenue claim with the given value, source quote and confidence. -/
def mkSampleClaim (v : ℚ) (q : String) (c : ℚ) : MetricClaim :=
  { metric_name := "total_revenue"
    value := v
    unit := "EUR"
    period := "FY2024"
    evidence := mkEvidence q c
    extraction_method := "llm_evidence_extraction"
    agent_id := "extractor_v1" }

/-- The spec's strong-agreement example: original value 1000, confidence 0.9. -/
def strongOriginal : MetricClaim :=
  mkSampleClaim 1000 "Total revenue for 2024 was 2.4 billion euros" (9/10)

/-- The spec's strong-agreement example: verification value 1005,
confidence 0.85, overlapping quote. -/
def strongVerification : MetricClaim :=
  mkSampleClaim 1005
    "Total revenue for 2024 was 2.4 billion euros approximately" (85/100)

/-- Original claim with high confidence and quote sharing no token with
`conflictVerification`. -/
def conflictOriginal : MetricClaim :=
  mkSampleClaim 1000 "alpha beta gamma" (9/10)

/-- Verification claim agreeing on the value but quoting disjoint text with
high confidence, so the evidence-conflict flag is raised. -/
def conflictVerification : MetricClaim :=
  mkSampleClaim 1000 "delta epsilon zeta" (9/10)

/-- Verification claim with value 700 against an original of 1000
(agreement 0.7 < 0.8). -/
def disputedVerification : MetricClaim :=
  mkSampleClaim 700 "alpha beta gamma" (85/100)

/-- Original claim with weak confidence 0.5 for the moderate-band analysis. -/
def weakOriginal : MetricClaim :=
  mkSampleClaim 1000 "alpha beta gamma delta epsilon" (1/2)

/-- Verification claim with the same value and quote but weak confidence. -/
def weakVerification : MetricClaim :=
  mkSampleClaim 1000 "alpha beta gamma delta epsilon" (1/2)

/-- An oracle record satisfying every Evidence invariant of the spec: long
verbatim quote, long reasoning, numeric confidence 0.85 in (0, 1]. -/
def sampleRecord : RawMetric :=
  [("metric_name", PyVal.str "total_revenue"),
   ("value", PyVal.num (mkRat 2400000000 1)),
   ("unit", PyVal.str "EUR"),
   ("period", PyVal.str "FY2024"),
   ("source_quote",
     PyVal.str "Total revenue for 2024 was 2.4 billion euros"),
   ("confidence", PyVal.num (mkRat 85 100)),
   ("reasoning",
     PyVal.str "The sentence states total revenue for 2024 directly")]

/-- A first verification record from the oracle that carries no
`your_value` key. -/
def sampleVerificationData : RawVerification :=
  { your_source_quote := some "Revenue of 2.4 billion euros is stated"
    your_value := none
    your_confidence := some (9/10)
    your_reasoning := some "independent search found the same sentence"
    conflict_points := some [] }

/-- A one-entry verification log. -/
def sampleLog : List LogEntry :=
  [{ page := 1
     metric := "total_revenue"
     status := "verified"
     confidence := 9/10
     original_value := 1000
     consensus_value := some 1000 }]

/-! ## Helper lemmas -/

/-- The value-agreement of a value with itself is 1, zero or not. -/
theorem value_agreement_self (a : ℚ) : calculate_value_agreement a a = 1 := by
  unfold calculate_value_agreement
  by_cases ha : a = 0
  · simp [ha]
  · rw [if_neg (by simp [ha]), if_neg (by simp [ha])]
    simp [min_self, max_self, div_self ha]

/-- Two disjoint boolean filters together keep at most all elements. -/
theorem filter_disjoint_length_le {α : Type} (p q : α → Bool)
    (hpq : ∀ x, p x = true → q x = false) (l : List α) :
    (l.filter p).length + (l.filter q).length ≤ l.length := by
  induction l with
  | nil => simp
  | cons a t ih =>
    by_cases hp : p a = true
    · have hq := hpq a hp
      simp only [List.filter_cons, hp, hq, if_true, if_false,
        List.length_cons, Bool.false_eq_true]
      omega
    · have hp' : p a = false := by revert hp; cases p a <;> simp
      cases hq : q a <;>
        simp only [List.filter_cons, hp', hq, List.length_cons,
          Bool.false_eq_true, if_false, if_true] <;> omega

/-! ## Claim theorems -/

/-- Claim C3: when the verification claim is absent, `resolve_conflict`
returns status UNCERTAIN with `consensus_value = original.value`,
`confidence_score = original.evidence.confidence * 0.5`, and
`conflict_analysis = "Verification failed"`. -/
theorem resolve_no_verification_uncertain (original : MetricClaim) :
    (resolve_conflict original none).status = .UNCERTAIN ∧
    (resolve_conflict original none).consensus_value = some original.value ∧
    (resolve_conflict original none).confidence_score =
      original.evidence.confidence * (1/2) ∧
    (resolve_conflict original none).conflict_analysis =
      some "Verification failed" :=
  ⟨rfl, rfl, rfl, rfl⟩

/-- Claim C7: for every original claim and optional verification claim, the
status of `resolve_conflict` is VERIFIED, DISPUTED or UNCERTAIN; REJECTED is
never produced. -/
theorem resolve_status_never_rejected (original : MetricClaim)
    (verification : Option MetricClaim) :
    (resolve_conflict original verification).status = .VERIFIED ∨
    (resolve_conflict original verification).status = .DISPUTED ∨
    (resolve_conflict original verification).status = .UNCERTAIN := by
  cases verification with
  | none => right; right; rfl
  | some v =>
    simp only [resolve_conflict]
    split_ifs
    · left; rfl
    · right; left; rfl
    · right; right; rfl

/-- Claim C1: when `value_agreement > 0.95` and both evidence confidences
exceed 0.7, `resolve_conflict` returns VERIFIED with
`consensus_value = original.value` and `confidence_score` the minimum of the
two confidences. -/
theorem resolve_strong_agreement_verified (original verification : MetricClaim)
    (h1 : calculate_value_agreement original.value verification.value > 95/100)
    (h2 : original.evidence.confidence > 7/10)
    (h3 : verification.evidence.confidence > 7/10) :
    (resolve_conflict original (some verification)).status = .VERIFIED ∧
    (resolve_conflict original (some verification)).consensus_value =
      some original.value ∧
    (resolve_conflict original (some verification)).confidence_score =
      min original.evidence.confidence verification.evidence.confidence := by
  have hbs : (evaluate_evidence_strength original.evidence
      verification.evidence).both_strong = true := by
    simp only [evaluate_evidence_strength, decide_eq_true_eq]
    exact ⟨h2, h3⟩
  simp only [resolve_conflict]
  rw [if_pos ⟨h1, hbs⟩]
  exact ⟨rfl, rfl, rfl⟩

/-- Claim C1 witness: the spec's concrete instance (values 1000 and 1005,
confidences 0.9 and 0.85, overlapping quotes) resolves to VERIFIED with
consensus value 1000 and confidence score 0.85. -/
theorem resolve_strong_agreement_verified_witness :
    (resolve_conflict strongOriginal (some strongVerification)).status =
      .VERIFIED ∧
    (resolve_conflict strongOriginal
      (some strongVerification)).consensus_value = some 1000 ∧
    (resolve_conflict strongOriginal
      (some strongVerification)).confidence_score = 85/100 := by
  have h := resolve_strong_agreement_verified strongOriginal strongVerification
    (by norm_num [strongOriginal, strongVerification, mkSampleClaim,
      mkEvidence, calculate_value_agreement, min_def, max_def])
    (by norm_num [strongOriginal, mkSampleClaim, mkEvidence])
    (by norm_num [strongVerification, mkSampleClaim, mkEvidence])
  refine ⟨h.1, ?_, ?_⟩
  · rw [h.2.1]; rfl
  · rw [h.2.2]
    norm_num [strongOriginal, strongVerification, mkSampleClaim, mkEvidence,
      min_def]

/-- Claim C9: if the first verification record lacks `your_value`, the
verification agent returns a claim whose value equals the original claim's
value, and the downstream value agreement between the two is exactly 1. -/
theorem missing_your_value_gives_perfect_agreement (agent_id : String)
    (claim : MetricClaim) (vd : RawVerification)
    (rest : List RawVerification) (h : vd.your_value = none) :
    ∃ c, verify_claim agent_id claim (vd :: rest) = some c ∧
      c.value = claim.value ∧
      calculate_value_agreement claim.value c.value = 1 := by
  refine ⟨_, rfl, ?_, ?_⟩
  · show vd.your_value.getD claim.value = claim.value
    rw [h]; rfl
  · show calculate_value_agreement claim.value
      (vd.your_value.getD claim.value) = 1
    rw [h]
    exact value_agreement_self claim.value

/-- Claim C9 witness: a concrete oracle record without `your_value` yields a
verification claim carrying the original value 1000 and agreement 1. -/
theorem missing_your_value_gives_perfect_agreement_witness :
    ∃ c, verify_claim "verifier_v1" strongOriginal
        (sampleVerificationData :: []) = some c ∧
      c.value = strongOriginal.value ∧
      calculate_value_agreement strongOriginal.value c.value = 1 :=
  missing_your_value_gives_perfect_agreement "verifier_v1" strongOriginal
    sampleVerificationData [] rfl

/-- Claim C10: the 1.2 source-overlap boost multiplies both weights by the
same factor and cancels in the confidence-weighted average, so
`weighted_consensus` is unchanged by the `source_overlap` flag whenever the
two evidence confidences are not both zero. -/
theorem weighted_consensus_overlap_cancels (original verification : MetricClaim)
    (bs c : Bool)
    (_h : ¬(original.evidence.confidence = 0 ∧
      verification.evidence.confidence = 0)) :
    weighted_consensus original verification
      { both_strong := bs, source_overlap := true, conflict := c } =
    weighted_consensus original verification
      { both_strong := bs, source_overlap := false, conflict := c } := by
  have lhs_eq : weighted_consensus original verification
      { both_strong := bs, source_overlap := true, conflict := c } =
      (if original.evidence.confidence * (12/10) +
          verification.evidence.confidence * (12/10) = 0 then
        (original.value + verification.value) / 2
      else
        (original.value * (original.evidence.confidence * (12/10)) +
          verification.value * (verification.evidence.confidence * (12/10))) /
        (original.evidence.confidence * (12/10) +
          verification.evidence.confidence * (12/10))) := rfl
  have rhs_eq : weighted_consensus original verification
      { both_strong := bs, source_overlap := false, conflict := c } =
      (if original.evidence.confidence +
          verification.evidence.confidence = 0 then
        (original.value + verification.value) / 2
      else
        (original.value * original.evidence.confidence +
          verification.value * verification.evidence.confidence) /
        (original.evidence.confidence +
          verification.evidence.confidence)) := rfl
  rw [lhs_eq, rhs_eq]
  by_cases h0 : original.evidence.confidence + verification.evidence.confidence = 0
  · have hb : original.evidence.confidence * (12/10) +
        verification.evidence.confidence * (12/10) = 0 := by
      have : original.evidence.confidence * (12/10) +
          verification.evidence.confidence * (12/10) =
          (original.evidence.confidence +
            verification.evidence.confidence) * (12/10) := by ring
      rw [this, h0, zero_mul]
    rw [if_pos hb, if_pos h0]
  · have hb : original.evidence.confidence * (12/10) +
        verification.evidence.confidence * (12/10) ≠ 0 := by
      intro hc
      apply h0
      have : (original.evidence.confidence +
          verification.evidence.confidence) * (12/10) = 0 := by
        rw [← hc]; ring
      rcases mul_eq_zero.mp this with h' | h'
      · exact h'
      · norm_num at h'
    rw [if_neg hb, if_neg h0]
    have hnum : original.value * (original.evidence.confidence * (12/10)) +
        verification.value * (verification.evidence.confidence * (12/10)) =
        (original.value * original.evidence.confidence +
          verification.value * verification.evidence.confidence) * (12/10) := by
      ring
    have hden : original.evidence.confidence * (12/10) +
        verification.evidence.confidence * (12/10) =
        (original.evidence.confidence +
          verification.evidence.confidence) * (12/10) := by
      ring
    rw [hnum, hden, mul_div_mul_right _ _ (by norm_num : (12/10 : ℚ) ≠ 0)]

/-- Claim C10 witness: at the spec's example claims (confidences 0.9 and
0.85), toggling `source_overlap` leaves the weighted consensus unchanged. -/
theorem weighted_consensus_overlap_cancels_witness :
    weighted_consensus strongOriginal strongVerification
      { both_strong := true, source_overlap := true, conflict := false } =
    weighted_consensus strongOriginal strongVerification
      { both_strong := true, source_overlap := false, conflict := false } :=
  weighted_consensus_overlap_cancels strongOriginal strongVerification
    true false
    (by norm_num [strongOriginal, strongVerification, mkSampleClaim,
      mkEvidence])

/-- Claim C2 counterexample: with equal values (agreement 1 > 0.95) and
high-confidence disjoint quotes, the evidence-conflict flag holds, yet
`resolve_conflict` returns VERIFIED rather than DISPUTED, because the
strong-agreement branch is tested first. -/
theorem conflict_high_agreement_not_disputed :
    (evaluate_evidence_strength conflictOriginal.evidence
      conflictVerification.evidence).conflict = true ∧
    (resolve_conflict conflictOriginal (some conflictVerification)).status =
      .VERIFIED ∧
    (resolve_conflict conflictOriginal (some conflictVerification)).status ≠
      .DISPUTED := by
  have hva : calculate_value_agreement conflictOriginal.value
      conflictVerification.value = 1 := value_agreement_self 1000
  have hconf : (evaluate_evidence_strength conflictOriginal.evidence
      conflictVerification.evidence).conflict = true := by
    simp only [evaluate_evidence_strength, decide_eq_true_eq]
    refine ⟨by norm_num [conflictOriginal, mkSampleClaim, mkEvidence],
      by norm_num [conflictVerification, mkSampleClaim, mkEvidence], ?_⟩
    show tokenOverlapCount (mkEvidence "alpha beta gamma" (9/10)).source_quote
      (mkEvidence "delta epsilon zeta" (9/10)).source_quote < 2
    decide
  have hbs : (evaluate_evidence_strength conflictOriginal.evidence
      conflictVerification.evidence).both_strong = true := by
    simp only [evaluate_evidence_strength, decide_eq_true_eq]
    exact ⟨by norm_num [conflictOriginal, mkSampleClaim, mkEvidence],
      by norm_num [conflictVerification, mkSampleClaim, mkEvidence]⟩
  have hstatus : (resolve_conflict conflictOriginal
      (some conflictVerification)).status = .VERIFIED := by
    simp only [resolve_conflict]
    rw [if_pos ⟨by rw [hva]; norm_num, hbs⟩]
  exact ⟨hconf, hstatus, by rw [hstatus]; exact fun hc =>
    VerificationStatus.noConfusion hc⟩

/-- Claim C2 amended: if `value_agreement < 0.8`, or the evidence-conflict
flag holds and `value_agreement ≤ 0.95` (so the strong-agreement branch
cannot preempt it), then `resolve_conflict` returns DISPUTED with no
consensus value and confidence score 0.3. -/
theorem resolve_disagreement_disputed (original verification : MetricClaim)
    (h : calculate_value_agreement original.value verification.value < 8/10 ∨
      ((evaluate_evidence_strength original.evidence
          verification.evidence).conflict = true ∧
        calculate_value_agreement original.value verification.value ≤
          95/100)) :
    (resolve_conflict original (some verification)).status = .DISPUTED ∧
    (resolve_conflict original (some verification)).consensus_value = none ∧
    (resolve_conflict original (some verification)).confidence_score =
      3/10 := by
  have hnot : ¬(calculate_value_agreement original.value verification.value >
      95/100 ∧ (evaluate_evidence_strength original.evidence
        verification.evidence).both_strong = true) := by
    rcases h with h | ⟨_, hle⟩
    · rintro ⟨hgt, _⟩; linarith
    · rintro ⟨hgt, _⟩; linarith
  have hcond : calculate_value_agreement original.value verification.value <
      8/10 ∨ (evaluate_evidence_strength original.evidence
        verification.evidence).conflict = true := h.imp id And.left
  simp only [resolve_conflict]
  rw [if_neg hnot, if_pos hcond]
  exact ⟨rfl, rfl, rfl⟩

/-- Claim C2 witness: the spec's 1000-versus-700 example (agreement 0.7)
resolves to DISPUTED with no consensus value and confidence score 0.3. -/
theorem resolve_disagreement_disputed_witness :
    (resolve_conflict conflictOriginal (some disputedVerification)).status =
      .DISPUTED ∧
    (resolve_conflict conflictOriginal
      (some disputedVerification)).consensus_value = none ∧
    (resolve_conflict conflictOriginal
      (some disputedVerification)).confidence_score = 3/10 :=
  resolve_disagreement_disputed conflictOriginal disputedVerification
    (Or.inl (by norm_num [conflictOriginal, disputedVerification,
      mkSampleClaim, mkEvidence, calculate_value_agreement, min_def,
      max_def]))

/-- Claim C4 counterexample: the code takes no absolute values, so at
`(-2, -1)` it returns `min(-2,-1)/max(-2,-1) = 2`, while the spec's
`min(|a|,|b|)/max(|a|,|b|)` gives 0.5. -/
theorem value_agreement_no_abs_counterexample :
    calculate_value_agreement (-2) (-1) = 2 ∧
    ratio_spec (-2) (-1) = 1/2 ∧
    calculate_value_agreement (-2) (-1) ≠ ratio_spec (-2) (-1) := by
  refine ⟨?_, ?_, ?_⟩
  · norm_num [calculate_value_agreement, min_def, max_def]
  · norm_num [ratio_spec, min_def, max_def, abs]
  · norm_num [calculate_value_agreement, ratio_spec, min_def, max_def, abs]

/-- Claim C4 amended: for nonzero inputs the agreement is
`min(a,b)/max(a,b)` over the signed values (no absolute values are taken);
reflexivity at 1 and symmetry still hold, as do the zero cases. -/
theorem value_agreement_signed_minmax (a b : ℚ) (ha : a ≠ 0) (hb : b ≠ 0) :
    calculate_value_agreement a b = min a b / max a b ∧
    calculate_value_agreement a a = 1 ∧
    calculate_value_agreement a b = calculate_value_agreement b a ∧
    calculate_value_agreement 0 0 = 1 ∧
    calculate_value_agreement a 0 = 0 := by
  refine ⟨?_, value_agreement_self a, ?_, ?_, ?_⟩
  · unfold calculate_value_agreement
    rw [if_neg (by simp [ha]), if_neg (by simp [ha, hb])]
  · unfold calculate_value_agreement
    rw [if_neg (by simp [ha]), if_neg (by simp [ha, hb]),
      if_neg (by simp [hb]), if_neg (by simp [ha, hb]),
      min_comm, max_comm]
  · simp [calculate_value_agreement]
  · unfold calculate_value_agreement
    rw [if_neg (by simp [ha]), if_pos (Or.inr rfl)]

/-- Claim C4 witness: at `(-2, -1)` the signed min/max form evaluates the
code's agreement exactly, together with reflexivity, symmetry, and the zero
cases. -/
theorem value_agreement_signed_minmax_witness :
    calculate_value_agreement (-2) (-1) = min (-2 : ℚ) (-1) / max (-2 : ℚ) (-1) ∧
    calculate_value_agreement (-2) (-2) = 1 ∧
    calculate_value_agreement (-2) (-1) = calculate_value_agreement (-1) (-2) ∧
    calculate_value_agreement 0 0 = 1 ∧
    calculate_value_agreement (-2) 0 = 0 :=
  value_agreement_signed_minmax (-2) (-1) (by norm_num) (by norm_num)

/-- Claim C5 counterexample: equal values (agreement 1 > 0.95) with weak
confidences 0.5 make `both_strong` false, so the moderate-band outcome
(status UNCERTAIN, score 0.6, weighted consensus) fires even though
`value_agreement > 0.95`. -/
theorem moderate_band_above_95_counterexample :
    calculate_value_agreement weakOriginal.value weakVerification.value >
      95/100 ∧
    (resolve_conflict weakOriginal (some weakVerification)).status =
      .UNCERTAIN ∧
    (resolve_conflict weakOriginal (some weakVerification)).confidence_score =
      6/10 ∧
    (resolve_conflict weakOriginal (some weakVerification)).consensus_value =
      some (weighted_consensus weakOriginal weakVerification
        (evaluate_evidence_strength weakOriginal.evidence
          weakVerification.evidence)) := by
  have hva : calculate_value_agreement weakOriginal.value
      weakVerification.value = 1 := value_agreement_self 1000
  have hbs : (evaluate_evidence_strength weakOriginal.evidence
      weakVerification.evidence).both_strong = false := by
    simp only [evaluate_evidence_strength, decide_eq_false_iff_not]
    rintro ⟨hc, _⟩
    revert hc
    norm_num [weakOriginal, mkSampleClaim, mkEvidence]
  have hcf : (evaluate_evidence_strength weakOriginal.evidence
      weakVerification.evidence).conflict = false := by
    simp only [evaluate_evidence_strength, decide_eq_false_iff_not]
    rintro ⟨hc, _⟩
    revert hc
    norm_num [weakOriginal, mkSampleClaim, mkEvidence]
  have hfirst : ¬(calculate_value_agreement weakOriginal.value
      weakVerification.value > 95/100 ∧
      (evaluate_evidence_strength weakOriginal.evidence
        weakVerification.evidence).both_strong = true) := by
    rintro ⟨_, hb⟩
    rw [hbs] at hb
    exact Bool.noConfusion hb
  have hsecond : ¬(calculate_value_agreement weakOriginal.value
      weakVerification.value < 8/10 ∨
      (evaluate_evidence_strength weakOriginal.evidence
        weakVerification.evidence).conflict = true) := by
    rintro (hlt | hc)
    · rw [hva] at hlt; norm_num at hlt
    · rw [hcf] at hc; exact Bool.noConfusion hc
  refine ⟨by rw [hva]; norm_num, ?_⟩
  simp only [resolve_conflict]
  rw [if_neg hfirst, if_neg hsecond]
  exact ⟨rfl, rfl, rfl⟩

/-- Claim C5 amended: the moderate-band outcome (status UNCERTAIN, score
0.6, weighted consensus value) occurs exactly when `value_agreement ≥ 0.8`,
the evidence-conflict flag is false, and the strong-agreement branch does
not fire, i.e. not (`value_agreement > 0.95` and `both_strong`); with
agreement above 0.95 but weak confidences this outcome still occurs. -/
theorem resolve_weighted_uncertain_iff (original verification : MetricClaim) :
    ((resolve_conflict original (some verification)).status = .UNCERTAIN ∧
     (resolve_conflict original (some verification)).confidence_score =
       6/10 ∧
     (resolve_conflict original (some verification)).consensus_value =
       some (weighted_consensus original verification
         (evaluate_evidence_strength original.evidence
           verification.evidence))) ↔
    (8/10 ≤ calculate_value_agreement original.value verification.value ∧
     (evaluate_evidence_strength original.evidence
       verification.evidence).conflict = false ∧
     ¬(calculate_value_agreement original.value verification.value >
         95/100 ∧
       (evaluate_evidence_strength original.evidence
         verification.evidence).both_strong = true)) := by
  simp only [resolve_conflict]
  split_ifs with hA hB
  · constructor
    · rintro ⟨hs, -, -⟩; exact hs.elim
    · rintro ⟨-, -, hn⟩; exact absurd hA hn
  · constructor
    · rintro ⟨-, hs, -⟩; norm_num at hs
    · rintro ⟨hge, hcf, -⟩
      rcases hB with hlt | hc
      · linarith
      · rw [hcf] at hc; exact Bool.noConfusion hc
  · constructor
    · intro _
      push_neg at hB
      refine ⟨hB.1, ?_, hA⟩
      have := hB.2
      revert this
      cases (evaluate_evidence_strength original.evidence
        verification.evidence).conflict <;> simp
    · intro _
      exact ⟨rfl, rfl, rfl⟩

/-- Claim C6: a candidate record satisfying every Evidence invariant of the
spec (long quote, long reasoning, numeric confidence 0.85 in (0,1]) is
nevertheless rejected by `_has_valid_evidence` — the `len(str(...)) > 10`
check is applied to the confidence field too, whose rendering "0.85" has
length 4 — and no claim for it appears in the extraction output. -/
theorem valid_confidence_record_dropped :
    (mkRat 0 1 < mkRat 85 100 ∧ mkRat 85 100 ≤ mkRat 1 1) ∧
    (pyStrip "Total revenue for 2024 was 2.4 billion euros").length > 10 ∧
    (pyStrip "The sentence states total revenue for 2024 directly").length >
      10 ∧
    pyStr (PyVal.num (mkRat 85 100)) = "0.85" ∧
    has_valid_evidence sampleRecord = false ∧
    extract_with_evidence [sampleRecord] 1 "extractor_v1" = [] := by
  decide

/-- Claim C8: on a non-empty verification log, the summary's verified and
disputed counts together never exceed the total number of extractions. -/
theorem summary_counts_bound (verification_log : List LogEntry)
    (h : verification_log ≠ []) :
    ∃ s, get_verification_summary verification_log = some s ∧
      s.verified_count + s.disputed_count ≤ s.total_extractions := by
  have hne : verification_log.isEmpty = false := by
    cases verification_log with
    | nil => exact absurd rfl h
    | cons a t => rfl
  unfold get_verification_summary
  rw [hne]
  refine ⟨_, rfl, ?_⟩
  apply filter_disjoint_length_le
  intro x hx
  have hx' : x.status = "verified" := by
    simpa using hx
  rw [hx']
  rfl

/-- Claim C8 witness: the bound holds on a concrete one-entry log. -/
theorem summary_counts_bound_witness :
    ∃ s, get_verification_summary sampleLog = some s ∧
      s.verified_count + s.disputed_count ≤ s.total_extractions :=
  summary_counts_bound sampleLog (by simp [sampleLog])

end DualAgent
